import Mathlib

/-!
Shallow embedding of the write-query lowering stage of the query compiler
(`query-compiler/src/translate/query/write.rs`, function `translate_write_query`).

The per-backend statement builder (`&dyn QueryBuilder` in the source) is modelled
as a record of functions over opaque carrier types; each builder operation may
fail with a `BuildError`, mirroring the fallible builder methods.  The logical
write-operation payload types (`CreateRecord`, `UpdateManyRecords`, ...) live in
the `query_core` crate which is outside the translated sources; they are modelled
here with exactly the fields the translation consumes (plus the fields the
translation explicitly ignores, which matter for non-interference statements).

Rust panics (`expect`, `todo!`) are distinguished from the catchable
`TranslateError` by a dedicated outcome constructor, so that fail-fast behaviour
and catchability are both expressible.  The translation function additionally
returns the ordered list of builder invocations it performed, so that claims of
the form "builder operation X observes zero invocations" can be stated.
-/

namespace QC

/-- Opaque backend statement produced by the statement builder
(`query_builder::DbQuery` in the source; opaque to the lowering pass). -/
structure DbQuery where
  id : Nat
deriving DecidableEq, Repr

/-- Opaque model identity (`query_structure::Model`). -/
structure Model where
  name : String
deriving DecidableEq, Repr

/-- Opaque backend-agnostic filter predicate (`query_structure::Filter`);
pass-through for this core. -/
structure Filter where
  cond : Nat
deriving DecidableEq, Repr

/-- Opaque selected-field identity (`query_structure::ScalarFieldRef` /
`SelectedField`); pass-through. -/
structure SelectedField where
  name : String
deriving DecidableEq, Repr

/-- Opaque scalar value (`query_structure::PrismaValue`); pass-through. -/
structure PrismaValue where
  val : Nat
deriving DecidableEq, Repr

/-- Opaque relation-field identity (`query_structure::RelationFieldRef`);
pass-through. -/
structure RelationField where
  id : Nat
deriving DecidableEq, Repr

/-- Opaque projection of fields requested back from a write
(`query_structure::FieldSelection`); pass-through. -/
structure FieldSelection where
  selections : List SelectedField
deriving DecidableEq, Repr

/-- Builder-specific failure (`query_builder` error type); pass-through,
wrapped by the lowering pass into a translation error. -/
structure BuildError where
  msg : String
deriving DecidableEq, Repr

/-- Write arguments for one record (`query_structure::WriteArgs`): a keyed list
of field writes.  Only emptiness is inspected by the lowering pass. -/
structure WriteArgs where
  args : List (String × PrismaValue)
deriving DecidableEq, Repr

/-- `WriteArgs::is_empty` from the source: no field writes present. -/
def WriteArgs.is_empty (w : WriteArgs) : Bool :=
  w.args.isEmpty

/-- A resolved identity of one record from an earlier plan step
(`query_structure::SelectionResult`): ordered (field, value) pairs.
Its Rust `IntoIterator` yields exactly these pairs. -/
structure SelectionResult where
  pairs : List (SelectedField × PrismaValue)
deriving DecidableEq, Repr

/-- Record filter (`query_structure::RecordFilter`): a filter plus optional
already-resolved record identities; only `.filter` is read by this pass. -/
structure RecordFilter where
  filter : Filter
  selectors : Option (List SelectionResult)
deriving DecidableEq, Repr

/-- Row-count limit marker (`query_structure::Take`); the lowering pass only
constructs `Take::Some(1)`. -/
inductive Take where
  | all : Take
  | some (n : Int) : Take
deriving DecidableEq, Repr

/-- Read-query arguments (`query_structure::QueryArguments`), restricted to the
components this pass sets: the model, the filter and the row limit. -/
structure QueryArguments where
  model : Model
  filter : Option Filter
  take : Take
deriving DecidableEq, Repr

/-- `QueryArguments::from((model, filter))`: arguments selecting by the given
filter with no explicit limit. -/
def QueryArguments.fromModelFilter (m : Model) (f : Filter) : QueryArguments :=
  { model := m, filter := some f, take := Take.all }

/-- `QueryArguments::with_take`: replace the row limit. -/
def QueryArguments.with_take (q : QueryArguments) (t : Take) : QueryArguments :=
  { q with take := t }

/-- `query_core::CreateRecord` payload (fields consumed by the translation). -/
structure CreateRecord where
  model : Model
  args : WriteArgs
  selected_fields : FieldSelection
deriving DecidableEq, Repr

/-- The `.fields`-bearing projection wrapper of `CreateManyRecords`
(`query_core::CreateManyRecordsFields`). -/
structure CreateManySelectedFields where
  fields : FieldSelection
deriving DecidableEq, Repr

/-- `query_core::CreateManyRecords` payload. -/
structure CreateManyRecords where
  model : Model
  args : List WriteArgs
  skip_duplicates : Bool
  selected_fields : Option CreateManySelectedFields
deriving DecidableEq, Repr

/-- The `.fields`-bearing projection wrapper of `UpdateManyRecords`. -/
structure UpdateManyRecordsFields where
  fields : FieldSelection
deriving DecidableEq, Repr

/-- `query_core::UpdateManyRecords` payload (fields consumed; the source
pattern discards the rest with `..`). -/
structure UpdateManyRecords where
  model : Model
  record_filter : RecordFilter
  args : WriteArgs
  selected_fields : Option UpdateManyRecordsFields
  limit : Option Nat
deriving DecidableEq, Repr

/-- `query_core::UpdateRecordWithSelection` payload.  `name` and
`selection_order` are present but explicitly ignored by the translation. -/
structure UpdateRecordWithSelection where
  name : String
  model : Model
  record_filter : RecordFilter
  args : WriteArgs
  selected_fields : FieldSelection
  selection_order : List String
deriving DecidableEq, Repr

/-- Modelled from the spec: the update-record variant carrying no selection,
for which the lowering function has no translation rule (its payload type
lives in `query_core`, outside the translated sources). -/
structure UpdateRecordWithoutSelection where
  model : Model
  record_filter : RecordFilter
  args : WriteArgs
deriving DecidableEq, Repr

/-- `query_core::UpdateRecord`: either variant of a single-record update. -/
inductive UpdateRecord where
  | WithSelection (u : UpdateRecordWithSelection) : UpdateRecord
  | WithoutSelection (u : UpdateRecordWithoutSelection) : UpdateRecord
deriving DecidableEq, Repr

/-- `query_core::NativeUpsert` payload; the source reads it through accessor
methods (`model()`, `filter()`, `create()`, `update()`, `selected_fields()`,
`unique_constraints()`), modelled as fields. -/
structure NativeUpsert where
  model : Model
  filter : Filter
  create : WriteArgs
  update : WriteArgs
  selected_fields : FieldSelection
  unique_constraints : List SelectedField
deriving DecidableEq, Repr

/-- `query_core::RawQuery` payload (shared by `QueryRaw` and `ExecuteRaw`). -/
structure RawQuery where
  model : Option Model
  inputs : List (String × PrismaValue)
  query_type : Option String
deriving DecidableEq, Repr

/-- The `.fields`-bearing projection wrapper of `DeleteRecord`
(`query_core::DeleteRecordFields`). -/
structure DeleteRecordFields where
  fields : FieldSelection
deriving DecidableEq, Repr

/-- `query_core::DeleteRecord` payload.  `name` is ignored by the
translation. -/
structure DeleteRecord where
  name : String
  model : Model
  record_filter : RecordFilter
  selected_fields : Option DeleteRecordFields
deriving DecidableEq, Repr

/-- `query_core::DeleteManyRecords` payload (no projection field exists). -/
structure DeleteManyRecords where
  model : Model
  record_filter : RecordFilter
  limit : Option Nat
deriving DecidableEq, Repr

/-- `query_core::ConnectRecords` payload: optional parent handle, list of
child handles, relation field. -/
structure ConnectRecords where
  parent_id : Option SelectionResult
  child_ids : List SelectionResult
  relation_field : RelationField
deriving DecidableEq, Repr

/-- `query_core::DisconnectRecords` payload. -/
structure DisconnectRecords where
  parent_id : Option SelectionResult
  child_ids : List SelectionResult
  relation_field : RelationField
deriving DecidableEq, Repr

/-- `query_core::WriteQuery`: the tagged union of logical write operations
dispatched on by the lowering function. -/
inductive WriteQuery where
  | CreateRecord (cr : CreateRecord) : WriteQuery
  | CreateManyRecords (cmr : CreateManyRecords) : WriteQuery
  | UpdateManyRecords (umr : UpdateManyRecords) : WriteQuery
  | UpdateRecord (ur : UpdateRecord) : WriteQuery
  | Upsert (u : NativeUpsert) : WriteQuery
  | QueryRaw (r : RawQuery) : WriteQuery
  | ExecuteRaw (r : RawQuery) : WriteQuery
  | DeleteRecord (dr : DeleteRecord) : WriteQuery
  | DeleteManyRecords (dmr : DeleteManyRecords) : WriteQuery
  | ConnectRecords (c : ConnectRecords) : WriteQuery
  | DisconnectRecords (d : DisconnectRecords) : WriteQuery
deriving DecidableEq, Repr

/-- The compiled expression tree (`crate::expression::Expression`), restricted
to the node kinds the write translation produces. -/
inductive Expression where
  | Query (q : DbQuery) : Expression
  | Execute (q : DbQuery) : Expression
  | Unique (child : Expression) : Expression
  | Concat (children : List Expression) : Expression
  | Sum (children : List Expression) : Expression

/-- The catchable translation error (`crate::TranslateError`), restricted to
the constructor this pass produces. -/
inductive TranslateError where
  | QueryBuildFailure (e : BuildError) : TranslateError
deriving DecidableEq, Repr

/-- Outcome of one lowering call: success (`Ok`), a catchable translation
error (`Err`), or a Rust panic (`expect` / `todo!`), which aborts and is not a
`TranslateError`. -/
inductive TranslateOutcome where
  | ok (e : Expression) : TranslateOutcome
  | trErr (e : TranslateError) : TranslateOutcome
  | panicked (msg : String) : TranslateOutcome

/-- Whether an outcome is a panic (process abort) rather than a value or a
catchable error. -/
def TranslateOutcome.isPanic : TranslateOutcome → Bool
  | .panicked _ => true
  | _ => false

/-- One invocation of a statement-builder operation, with the arguments it
received; used to record the ordered call trace of a lowering call. -/
inductive BuilderCall where
  | create_record (model : Model) (args : WriteArgs) (selected : FieldSelection) : BuilderCall
  | inserts (model : Model) (args : List WriteArgs) (skip : Bool)
      (selected : Option FieldSelection) : BuilderCall
  | updates (model : Model) (rf : RecordFilter) (args : WriteArgs)
      (projection : Option FieldSelection) (limit : Option Nat) : BuilderCall
  | update (model : Model) (rf : RecordFilter) (args : WriteArgs)
      (selected : Option FieldSelection) : BuilderCall
  | get_records (model : Model) (qargs : QueryArguments) (selected : FieldSelection) : BuilderCall
  | upsert (model : Model) (filter : Filter) (create : WriteArgs) (upd : WriteArgs)
      (selected : FieldSelection) (constraints : List SelectedField) : BuilderCall
  | raw (model : Option Model) (inputs : List (String × PrismaValue))
      (queryType : Option String) : BuilderCall
  | delete (model : Model) (rf : RecordFilter) (selected : Option FieldSelection) : BuilderCall
  | deletes (model : Model) (rf : RecordFilter) (limit : Option Nat) : BuilderCall
  | m2m_connect (rf : RelationField) (parent : PrismaValue) (child : PrismaValue) : BuilderCall
  | m2m_disconnect (rf : RelationField) (parent : SelectionResult)
      (children : List SelectionResult) : BuilderCall
deriving DecidableEq, Repr

/-- Whether a recorded builder call is the single-update-building operation
(`build_update`). -/
def BuilderCall.isBuildUpdate : BuilderCall → Bool
  | .update _ _ _ _ => true
  | _ => false

/-- The statement-builder capability (`query_builder::QueryBuilder`): one
fallible operation per write kind, mirroring the trait methods the lowering
function calls. -/
structure QueryBuilder where
  build_create_record : Model → WriteArgs → FieldSelection → Except BuildError DbQuery
  build_inserts : Model → List WriteArgs → Bool → Option FieldSelection →
    Except BuildError (List DbQuery)
  build_updates : Model → RecordFilter → WriteArgs → Option FieldSelection → Option Nat →
    Except BuildError (List DbQuery)
  build_update : Model → RecordFilter → WriteArgs → Option FieldSelection →
    Except BuildError DbQuery
  build_get_records : Model → QueryArguments → FieldSelection → Except BuildError DbQuery
  build_upsert : Model → Filter → WriteArgs → WriteArgs → FieldSelection →
    List SelectedField → Except BuildError DbQuery
  build_raw : Option Model → List (String × PrismaValue) → Option String →
    Except BuildError DbQuery
  build_delete : Model → RecordFilter → Option FieldSelection → Except BuildError DbQuery
  build_deletes : Model → RecordFilter → Option Nat → Except BuildError (List DbQuery)
  build_m2m_connect : RelationField → PrismaValue → PrismaValue → Except BuildError DbQuery
  build_m2m_disconnect : RelationField → SelectionResult → List SelectionResult →
    Except BuildError DbQuery

/-- `Iterator::exactly_one` from itertools (as consumed by `expect`): the
unique element when the sequence has exactly one, otherwise failure. -/
def exactlyOne {α : Type} : List α → Option α
  | [x] => Option.some x
  | _ => Option.none

/-- Flattening of an optional handle into its resolved (field, value) pairs:
`parent_id.into_iter().flat_map(IntoIterator::into_iter)` in the source. -/
def flattenHandle (h : Option SelectionResult) : List (SelectedField × PrismaValue) :=
  match h with
  | Option.none => []
  | Option.some sr => sr.pairs

/-- Flattening of a handle list into its resolved (field, value) pairs:
`child_ids.into_iter().flat_map(IntoIterator::into_iter)` in the source. -/
def flattenHandles (hs : List SelectionResult) : List (SelectedField × PrismaValue) :=
  match hs with
  | [] => []
  | sr :: rest => sr.pairs ++ flattenHandles rest

/-- The message of the `todo!("{other:?}")` panic on an unsupported variant:
"not yet implemented" followed by the debug rendering of the variant. -/
def todoMessage (q : WriteQuery) : String :=
  "not yet implemented: " ++ reprStr q

/-- The write-query lowering function `translate_write_query`, transcribed arm
by arm from the source.  The first component is the Rust return value
(`Ok`, `Err(TranslateError)`, or a panic); the second is the instrumentation:
the ordered list of statement-builder invocations made before returning. -/
def translate_write_query (query : WriteQuery) (builder : QueryBuilder) :
    TranslateOutcome × List BuilderCall :=
  match query with
  | .CreateRecord cr =>
    (match builder.build_create_record cr.model cr.args cr.selected_fields with
     | .error e => .trErr (.QueryBuildFailure e)
     | .ok q => .ok (.Unique (.Query q)),
     [BuilderCall.create_record cr.model cr.args cr.selected_fields])
  | .CreateManyRecords cmr =>
    match cmr.selected_fields with
    | Option.some selected_fields =>
      (match builder.build_inserts cmr.model cmr.args cmr.skip_duplicates
          (Option.some selected_fields.fields) with
       | .error e => .trErr (.QueryBuildFailure e)
       | .ok stmts => .ok (.Concat (stmts.map Expression.Query)),
       [BuilderCall.inserts cmr.model cmr.args cmr.skip_duplicates
          (Option.some selected_fields.fields)])
    | Option.none =>
      (match builder.build_inserts cmr.model cmr.args cmr.skip_duplicates Option.none with
       | .error e => .trErr (.QueryBuildFailure e)
       | .ok stmts => .ok (.Sum (stmts.map Expression.Execute)),
       [BuilderCall.inserts cmr.model cmr.args cmr.skip_duplicates Option.none])
  | .UpdateManyRecords umr =>
    let projection := umr.selected_fields.map (fun f => f.fields)
    (match builder.build_updates umr.model umr.record_filter umr.args projection umr.limit with
     | .error e => .trErr (.QueryBuildFailure e)
     | .ok stmts =>
       let updates := stmts.map
         (if projection.isSome then Expression.Query else Expression.Execute)
       if projection.isSome then .ok (.Concat updates) else .ok (.Sum updates),
     [BuilderCall.updates umr.model umr.record_filter umr.args projection umr.limit])
  | .UpdateRecord (.WithSelection u) =>
    if u.args.is_empty then
      let args := (QueryArguments.fromModelFilter u.model u.record_filter.filter).with_take
        (Take.some 1)
      (match builder.build_get_records u.model args u.selected_fields with
       | .error e => .trErr (.QueryBuildFailure e)
       | .ok q => .ok (.Unique (.Query q)),
       [BuilderCall.get_records u.model args u.selected_fields])
    else
      (match builder.build_update u.model u.record_filter u.args
          (Option.some u.selected_fields) with
       | .error e => .trErr (.QueryBuildFailure e)
       | .ok q => .ok (.Unique (.Query q)),
       [BuilderCall.update u.model u.record_filter u.args (Option.some u.selected_fields)])
  | .Upsert upsert =>
    (match builder.build_upsert upsert.model upsert.filter upsert.create upsert.update
        upsert.selected_fields upsert.unique_constraints with
     | .error e => .trErr (.QueryBuildFailure e)
     | .ok q => .ok (.Unique (.Query q)),
     [BuilderCall.upsert upsert.model upsert.filter upsert.create upsert.update
        upsert.selected_fields upsert.unique_constraints])
  | .QueryRaw r =>
    (match builder.build_raw r.model r.inputs r.query_type with
     | .error e => .trErr (.QueryBuildFailure e)
     | .ok q => .ok (.Query q),
     [BuilderCall.raw r.model r.inputs r.query_type])
  | .ExecuteRaw r =>
    (match builder.build_raw r.model r.inputs r.query_type with
     | .error e => .trErr (.QueryBuildFailure e)
     | .ok q => .ok (.Execute q),
     [BuilderCall.raw r.model r.inputs r.query_type])
  | .DeleteRecord dr =>
    let selected_fields := dr.selected_fields.map (fun sf => sf.fields)
    (match builder.build_delete dr.model dr.record_filter selected_fields with
     | .error e => .trErr (.QueryBuildFailure e)
     | .ok q =>
       if selected_fields.isSome then .ok (.Unique (.Query q)) else .ok (.Execute q),
     [BuilderCall.delete dr.model dr.record_filter selected_fields])
  | .DeleteManyRecords dmr =>
    (match builder.build_deletes dmr.model dmr.record_filter dmr.limit with
     | .error e => .trErr (.QueryBuildFailure e)
     | .ok stmts => .ok (.Sum (stmts.map Expression.Execute)),
     [BuilderCall.deletes dmr.model dmr.record_filter dmr.limit])
  | .ConnectRecords c =>
    match exactlyOne (flattenHandle c.parent_id) with
    | Option.none =>
      (.panicked "query compiler connects should never have more than one parent expression", [])
    | Option.some pp =>
      match exactlyOne (flattenHandles c.child_ids) with
      | Option.none =>
        (.panicked "query compiler connects should never have more than one child expression", [])
      | Option.some cp =>
        (match builder.build_m2m_connect c.relation_field pp.2 cp.2 with
         | .error e => .trErr (.QueryBuildFailure e)
         | .ok q => .ok (.Execute q),
         [BuilderCall.m2m_connect c.relation_field pp.2 cp.2])
  | .DisconnectRecords d =>
    match d.parent_id with
    | Option.none => (.panicked "should have parent ID for disconnect", [])
    | Option.some parent_id =>
      (match builder.build_m2m_disconnect d.relation_field parent_id d.child_ids with
       | .error e => .trErr (.QueryBuildFailure e)
       | .ok q => .ok (.Execute q),
       [BuilderCall.m2m_disconnect d.relation_field parent_id d.child_ids])
  | other => (.panicked (todoMessage other), [])

/-- A write operation that, by construction, touches at most one record:
create, update-with-selection, upsert, and delete with a requested
projection. -/
def isSingleRecordWrite : WriteQuery → Bool
  | .CreateRecord _ => true
  | .UpdateRecord (.WithSelection _) => true
  | .Upsert _ => true
  | .DeleteRecord dr => dr.selected_fields.isSome
  | _ => false

/-- `exactly_one` succeeds precisely on singleton sequences. -/
theorem exactlyOne_some_length {α : Type} {xs : List α} {x : α}
    (h : exactlyOne xs = Option.some x) : xs.length = 1 := by
  cases xs with
  | nil => exact absurd h (by simp [exactlyOne])
  | cons y ys =>
    cases ys with
    | nil => rfl
    | cons z t => exact absurd h (by simp [exactlyOne])

/- Concrete fixtures used to instantiate the universally quantified theorems
below on runnable inputs. -/

/-- A concrete backend statement. -/
def stmt0 : DbQuery := ⟨0⟩

/-- A second concrete backend statement. -/
def stmt1 : DbQuery := ⟨1⟩

/-- A concrete model. -/
def model0 : Model := ⟨"User"⟩

/-- A concrete filter. -/
def filter0 : Filter := ⟨7⟩

/-- A concrete record filter. -/
def rf0 : RecordFilter := ⟨filter0, Option.none⟩

/-- Empty write arguments. -/
def argsEmpty : WriteArgs := ⟨[]⟩

/-- Non-empty write arguments. -/
def argsOne : WriteArgs := ⟨[("field", ⟨1⟩)]⟩

/-- A concrete field selection. -/
def fs0 : FieldSelection := ⟨[⟨"id"⟩]⟩

/-- A concrete statement builder where every operation succeeds; the batching
operations return two statements. -/
def b0 : QueryBuilder where
  build_create_record := fun _ _ _ => Except.ok stmt0
  build_inserts := fun _ _ _ _ => Except.ok [stmt0, stmt1]
  build_updates := fun _ _ _ _ _ => Except.ok [stmt0, stmt1]
  build_update := fun _ _ _ _ => Except.ok stmt0
  build_get_records := fun _ _ _ => Except.ok stmt0
  build_upsert := fun _ _ _ _ _ _ => Except.ok stmt0
  build_raw := fun _ _ _ => Except.ok stmt0
  build_delete := fun _ _ _ => Except.ok stmt0
  build_deletes := fun _ _ _ => Except.ok [stmt0, stmt1]
  build_m2m_connect := fun _ _ _ => Except.ok stmt0
  build_m2m_disconnect := fun _ _ _ => Except.ok stmt0

/-- A concrete create-many payload with a requested projection. -/
def cmr0 : CreateManyRecords := ⟨model0, [argsOne], true, Option.some ⟨fs0⟩⟩

/-- A concrete connect payload whose parent handle resolves to two values. -/
def connectTwoParents : ConnectRecords :=
  ⟨Option.some ⟨[(⟨"id"⟩, ⟨1⟩), (⟨"id"⟩, ⟨2⟩)]⟩, [⟨[(⟨"id"⟩, ⟨3⟩)]⟩], ⟨0⟩⟩

/-- A concrete update-with-selection payload with empty arguments. -/
def updEmpty : UpdateRecordWithSelection := ⟨"updateOne", model0, rf0, argsEmpty, fs0, []⟩

/-- A concrete disconnect payload with an absent parent handle. -/
def discNoParent : DisconnectRecords := ⟨Option.none, [⟨[(⟨"id"⟩, ⟨3⟩)]⟩], ⟨0⟩⟩

/-- A concrete parent handle. -/
def parent0 : SelectionResult := ⟨[(⟨"id"⟩, ⟨1⟩)]⟩

/-- A concrete disconnect payload with a present parent handle and one child. -/
def discParent : DisconnectRecords := ⟨Option.some parent0, [⟨[(⟨"id"⟩, ⟨3⟩)]⟩], ⟨0⟩⟩

/-- A concrete raw payload. -/
def raw0 : RawQuery := ⟨Option.some model0, [("arg", ⟨1⟩)], Option.some "sql"⟩

/-- A concrete delete payload without a projection. -/
def delNoProj : DeleteRecord := ⟨"deleteOne", model0, rf0, Option.none⟩

/-- A concrete delete-many payload. -/
def dmr0 : DeleteManyRecords := ⟨model0, rf0, Option.some 5⟩

/-- A concrete unsupported operation: an update-record without selection. -/
def unsupported0 : WriteQuery :=
  WriteQuery.UpdateRecord (UpdateRecord.WithoutSelection ⟨model0, rf0, argsOne⟩)

/-- C1: for every single-record write operation (CreateRecord,
UpdateRecord::WithSelection, Upsert, and DeleteRecord with a projection), any
expression tree produced by `translate_write_query` has outermost node
`Unique` wrapping exactly one `Query` leaf. -/
theorem single_record_write_unique_query (q : WriteQuery) (b : QueryBuilder)
    (h : isSingleRecordWrite q = true) (e : Expression)
    (he : (translate_write_query q b).1 = TranslateOutcome.ok e) :
    ∃ stmt, e = Expression.Unique (Expression.Query stmt) := by
  cases q with
  | CreateRecord cr =>
    simp only [translate_write_query] at he
    cases hb : b.build_create_record cr.model cr.args cr.selected_fields with
    | error err => rw [hb] at he; cases he
    | ok st => rw [hb] at he; exact ⟨st, by cases he; rfl⟩
  | UpdateRecord ur =>
    cases ur with
    | WithSelection u =>
      simp only [translate_write_query] at he
      by_cases hemp : u.args.is_empty = true
      · simp only [hemp, if_true] at he
        cases hb : b.build_get_records u.model
            ((QueryArguments.fromModelFilter u.model u.record_filter.filter).with_take
              (Take.some 1)) u.selected_fields with
        | error err => rw [hb] at he; cases he
        | ok st => rw [hb] at he; exact ⟨st, by cases he; rfl⟩
      · simp only [hemp, if_false] at he
        cases hb : b.build_update u.model u.record_filter u.args
            (Option.some u.selected_fields) with
        | error err => rw [hb] at he; cases he
        | ok st => rw [hb] at he; exact ⟨st, by cases he; rfl⟩
    | WithoutSelection u => exact absurd h (by simp [isSingleRecordWrite])
  | Upsert up =>
    simp only [translate_write_query] at he
    cases hb : b.build_upsert up.model up.filter up.create up.update up.selected_fields
        up.unique_constraints with
    | error err => rw [hb] at he; cases he
    | ok st => rw [hb] at he; exact ⟨st, by cases he; rfl⟩
  | DeleteRecord dr =>
    simp only [isSingleRecordWrite, Option.isSome_iff_exists] at h
    obtain ⟨sf, hsf⟩ := h
    simp only [translate_write_query, hsf, Option.map_some'] at he
    cases hb : b.build_delete dr.model dr.record_filter (Option.some sf.fields) with
    | error err => rw [hb] at he; cases he
    | ok st =>
      rw [hb] at he
      simp only [Option.isSome_some, if_true] at he
      exact ⟨st, by cases he; rfl⟩
  | CreateManyRecords cmr => exact absurd h (by simp [isSingleRecordWrite])
  | UpdateManyRecords umr => exact absurd h (by simp [isSingleRecordWrite])
  | QueryRaw r => exact absurd h (by simp [isSingleRecordWrite])
  | ExecuteRaw r => exact absurd h (by simp [isSingleRecordWrite])
  | DeleteManyRecords dmr => exact absurd h (by simp [isSingleRecordWrite])
  | ConnectRecords c => exact absurd h (by simp [isSingleRecordWrite])
  | DisconnectRecords d => exact absurd h (by simp [isSingleRecordWrite])

/-- C1 witness: the theorem instantiated on a concrete create operation. -/
theorem single_record_write_unique_query_witness :
    ∃ stmt,
      Expression.Unique (Expression.Query stmt0) = Expression.Unique (Expression.Query stmt) :=
  single_record_write_unique_query (WriteQuery.CreateRecord ⟨model0, argsOne, fs0⟩) b0 rfl
    (Expression.Unique (Expression.Query stmt0)) rfl

/-- C2: for CreateManyRecords and UpdateManyRecords, when a projection is
requested the result is `Concat` over `Query` children, one per statement
returned by the batching builder call and in the same order; without a
projection it is `Sum` over `Execute` children in the same order. -/
theorem batched_create_update_shape (b : QueryBuilder) :
    (∀ (cmr : CreateManyRecords) (sf : CreateManySelectedFields) (stmts : List DbQuery),
      cmr.selected_fields = Option.some sf →
      b.build_inserts cmr.model cmr.args cmr.skip_duplicates (Option.some sf.fields)
        = Except.ok stmts →
      (translate_write_query (WriteQuery.CreateManyRecords cmr) b).1
        = TranslateOutcome.ok (Expression.Concat (stmts.map Expression.Query)))
    ∧ (∀ (cmr : CreateManyRecords) (stmts : List DbQuery),
      cmr.selected_fields = Option.none →
      b.build_inserts cmr.model cmr.args cmr.skip_duplicates Option.none = Except.ok stmts →
      (translate_write_query (WriteQuery.CreateManyRecords cmr) b).1
        = TranslateOutcome.ok (Expression.Sum (stmts.map Expression.Execute)))
    ∧ (∀ (umr : UpdateManyRecords) (sf : UpdateManyRecordsFields) (stmts : List DbQuery),
      umr.selected_fields = Option.some sf →
      b.build_updates umr.model umr.record_filter umr.args (Option.some sf.fields) umr.limit
        = Except.ok stmts →
      (translate_write_query (WriteQuery.UpdateManyRecords umr) b).1
        = TranslateOutcome.ok (Expression.Concat (stmts.map Expression.Query)))
    ∧ (∀ (umr : UpdateManyRecords) (stmts : List DbQuery),
      umr.selected_fields = Option.none →
      b.build_updates umr.model umr.record_filter umr.args Option.none umr.limit
        = Except.ok stmts →
      (translate_write_query (WriteQuery.UpdateManyRecords umr) b).1
        = TranslateOutcome.ok (Expression.Sum (stmts.map Expression.Execute))) := by
  refine ⟨?_, ?_, ?_, ?_⟩
  · intro cmr sf stmts hsel hb
    simp [translate_write_query, hsel, hb]
  · intro cmr stmts hsel hb
    simp [translate_write_query, hsel, hb]
  · intro umr sf stmts hsel hb
    simp [translate_write_query, hsel, hb]
  · intro umr stmts hsel hb
    simp [translate_write_query, hsel, hb]

/-- C2 witness: the create-many conjunct instantiated on a concrete payload
with a projection and a builder returning two statements, in order. -/
theorem batched_create_update_shape_witness :
    (translate_write_query (WriteQuery.CreateManyRecords cmr0) b0).1
      = TranslateOutcome.ok (Expression.Concat ([stmt0, stmt1].map Expression.Query)) :=
  (batched_create_update_shape b0).1 cmr0 ⟨fs0⟩ [stmt0, stmt1] rfl rfl

/-- C3: a connect whose parent handle (or child handle) resolves to a number
of values different from exactly one panics before any statement-builder call
is made: the outcome is a panic and the builder-call trace is empty. -/
theorem connect_non_singleton_panics_before_builder (b : QueryBuilder) (c : ConnectRecords)
    (h : (flattenHandle c.parent_id).length ≠ 1 ∨ (flattenHandles c.child_ids).length ≠ 1) :
    (translate_write_query (WriteQuery.ConnectRecords c) b).1.isPanic = true ∧
    (translate_write_query (WriteQuery.ConnectRecords c) b).2 = [] := by
  simp only [translate_write_query]
  cases hp : exactlyOne (flattenHandle c.parent_id) with
  | none => exact ⟨rfl, rfl⟩
  | some pp =>
    cases hc : exactlyOne (flattenHandles c.child_ids) with
    | none => exact ⟨rfl, rfl⟩
    | some cp =>
      exfalso
      cases h with
      | inl h1 => exact h1 (exactlyOne_some_length hp)
      | inr h1 => exact h1 (exactlyOne_some_length hc)

/-- C3 witness: the theorem instantiated on a connect whose parent handle
resolves to two values. -/
theorem connect_non_singleton_panics_before_builder_witness :
    (translate_write_query (WriteQuery.ConnectRecords connectTwoParents) b0).1.isPanic = true ∧
    (translate_write_query (WriteQuery.ConnectRecords connectTwoParents) b0).2 = [] :=
  connect_non_singleton_panics_before_builder b0 connectTwoParents (Or.inl (by decide))

/-- C4 counterexample: on an operation variant with no translation rule
(update-record without selection), `translate_write_query` panics (the
`todo!` process abort) and does not surface any catchable `TranslateError`. -/
theorem unsupported_variant_no_catchable_error :
    (translate_write_query unsupported0 b0).1.isPanic = true ∧
    ∀ e : TranslateError, (translate_write_query unsupported0 b0).1 ≠ TranslateOutcome.trErr e := by
  refine ⟨rfl, ?_⟩
  intro e h
  exact TranslateOutcome.noConfusion h

/-- C4 (amended): for every write-operation variant that has no translation
rule, `translate_write_query` aborts immediately via a panic whose message
identifies the unsupported variant (the `todo!` debug rendering), making no
builder call — rather than returning a catchable `TranslateError`. -/
theorem unsupported_variant_panics_identifying (b : QueryBuilder)
    (u : UpdateRecordWithoutSelection) :
    translate_write_query (WriteQuery.UpdateRecord (UpdateRecord.WithoutSelection u)) b
      = (TranslateOutcome.panicked
          (todoMessage (WriteQuery.UpdateRecord (UpdateRecord.WithoutSelection u))), []) :=
  rfl

/-- C5: an update-with-selection whose argument set is empty performs exactly
one builder call — the read-statement builder with the filter narrowed to a
row limit of 1 — so the update-building operation observes zero invocations,
and a successful result is still `Unique(Query(stmt))` over the read
statement. -/
theorem empty_args_update_reads (b : QueryBuilder) (u : UpdateRecordWithSelection)
    (h : u.args.is_empty = true) :
    ((translate_write_query (WriteQuery.UpdateRecord (UpdateRecord.WithSelection u)) b).2
        = [BuilderCall.get_records u.model
            ((QueryArguments.fromModelFilter u.model u.record_filter.filter).with_take
              (Take.some 1)) u.selected_fields]
      ∧ ∀ call ∈ (translate_write_query
            (WriteQuery.UpdateRecord (UpdateRecord.WithSelection u)) b).2,
          call.isBuildUpdate = false)
    ∧ ∀ stmt : DbQuery,
      b.build_get_records u.model
          ((QueryArguments.fromModelFilter u.model u.record_filter.filter).with_take
            (Take.some 1)) u.selected_fields = Except.ok stmt →
      (translate_write_query (WriteQuery.UpdateRecord (UpdateRecord.WithSelection u)) b).1
        = TranslateOutcome.ok (Expression.Unique (Expression.Query stmt)) := by
  refine ⟨⟨?_, ?_⟩, ?_⟩
  · simp [translate_write_query, h]
  · simp [translate_write_query, h, BuilderCall.isBuildUpdate]
  · intro stmt hb
    simp [translate_write_query, h, hb]

/-- C5 witness: the theorem instantiated on a concrete empty-argument update
and a concrete builder. -/
theorem empty_args_update_reads_witness :
    (translate_write_query (WriteQuery.UpdateRecord (UpdateRecord.WithSelection updEmpty)) b0).1
      = TranslateOutcome.ok (Expression.Unique (Expression.Query stmt0)) :=
  (empty_args_update_reads b0 updEmpty rfl).2 stmt0 rfl

/-- C6: a disconnect with an absent parent handle panics with an empty
builder-call trace; a disconnect with a present parent handle makes exactly
one builder call receiving the full child-handle set, and a successful result
is exactly one `Execute` node. -/
theorem disconnect_parent_precondition_single_execute (b : QueryBuilder)
    (d : DisconnectRecords) :
    (d.parent_id = Option.none →
      (translate_write_query (WriteQuery.DisconnectRecords d) b).1.isPanic = true ∧
      (translate_write_query (WriteQuery.DisconnectRecords d) b).2 = [])
    ∧ ∀ p : SelectionResult, d.parent_id = Option.some p →
        (translate_write_query (WriteQuery.DisconnectRecords d) b).2
          = [BuilderCall.m2m_disconnect d.relation_field p d.child_ids]
        ∧ ∀ stmt : DbQuery,
            b.build_m2m_disconnect d.relation_field p d.child_ids = Except.ok stmt →
            (translate_write_query (WriteQuery.DisconnectRecords d) b).1
              = TranslateOutcome.ok (Expression.Execute stmt) := by
  constructor
  · intro hnone
    simp [translate_write_query, hnone, TranslateOutcome.isPanic]
  · intro p hsome
    constructor
    · simp [translate_write_query, hsome]
    · intro stmt hb
      simp [translate_write_query, hsome, hb]

/-- C6 witness: the theorem instantiated on a parent-less disconnect (panic,
no builder calls) and on a disconnect with one parent (single `Execute`). -/
theorem disconnect_parent_precondition_single_execute_witness :
    ((translate_write_query (WriteQuery.DisconnectRecords discNoParent) b0).1.isPanic = true
      ∧ (translate_write_query (WriteQuery.DisconnectRecords discNoParent) b0).2 = [])
    ∧ (translate_write_query (WriteQuery.DisconnectRecords discParent) b0).1
        = TranslateOutcome.ok (Expression.Execute stmt0) :=
  ⟨(disconnect_parent_precondition_single_execute b0 discNoParent).1 rfl,
   ((disconnect_parent_precondition_single_execute b0 discParent).2 parent0 rfl).2 stmt0 rfl⟩

/-- C7: QueryRaw and ExecuteRaw with identical model/inputs/raw-kind invoke
the same builder operation with the same arguments (identical one-element
call traces), and their results differ only in the wrapping: `Query(stmt)`
versus `Execute(stmt)`. -/
theorem raw_same_call_different_wrapping (b : QueryBuilder) (r : RawQuery) :
    ((translate_write_query (WriteQuery.QueryRaw r) b).2
        = [BuilderCall.raw r.model r.inputs r.query_type]
      ∧ (translate_write_query (WriteQuery.ExecuteRaw r) b).2
        = [BuilderCall.raw r.model r.inputs r.query_type])
    ∧ ∀ stmt : DbQuery, b.build_raw r.model r.inputs r.query_type = Except.ok stmt →
        (translate_write_query (WriteQuery.QueryRaw r) b).1
          = TranslateOutcome.ok (Expression.Query stmt)
        ∧ (translate_write_query (WriteQuery.ExecuteRaw r) b).1
          = TranslateOutcome.ok (Expression.Execute stmt) := by
  refine ⟨⟨rfl, rfl⟩, ?_⟩
  intro stmt hb
  constructor
  · simp [translate_write_query, hb]
  · simp [translate_write_query, hb]

/-- C7 witness: the theorem instantiated on a concrete raw payload. -/
theorem raw_same_call_different_wrapping_witness :
    (translate_write_query (WriteQuery.QueryRaw raw0) b0).1
      = TranslateOutcome.ok (Expression.Query stmt0)
    ∧ (translate_write_query (WriteQuery.ExecuteRaw raw0) b0).1
      = TranslateOutcome.ok (Expression.Execute stmt0) :=
  (raw_same_call_different_wrapping b0 raw0).2 stmt0 rfl

/-- C8: a delete without a requested projection produces, on success, exactly
one `Execute` node over the built delete statement, never wrapped in
`Unique`. -/
theorem delete_without_projection_single_execute (b : QueryBuilder) (dr : DeleteRecord)
    (h : dr.selected_fields = Option.none) (e : Expression)
    (he : (translate_write_query (WriteQuery.DeleteRecord dr) b).1 = TranslateOutcome.ok e) :
    ∃ stmt, e = Expression.Execute stmt
      ∧ b.build_delete dr.model dr.record_filter Option.none = Except.ok stmt := by
  simp only [translate_write_query, h, Option.map_none'] at he
  cases hb : b.build_delete dr.model dr.record_filter Option.none with
  | error err => rw [hb] at he; cases he
  | ok st =>
    rw [hb] at he
    simp only [Option.isSome_none, Bool.false_eq_true, if_false] at he
    exact ⟨st, by cases he; rfl, rfl⟩

/-- C8 witness: the theorem instantiated on a concrete projection-less
delete. -/
theorem delete_without_projection_single_execute_witness :
    ∃ stmt, Expression.Execute stmt0 = Expression.Execute stmt
      ∧ b0.build_delete delNoProj.model delNoProj.record_filter Option.none
        = Except.ok stmt :=
  delete_without_projection_single_execute b0 delNoProj rfl (Expression.Execute stmt0) rfl

/-- C9: a delete-many always produces `Sum` over `Execute` children, one per
statement returned by the batched-deletes builder call, in order (the payload
has no projection field at all). -/
theorem delete_many_sum_over_execute (b : QueryBuilder) (dmr : DeleteManyRecords)
    (stmts : List DbQuery)
    (h : b.build_deletes dmr.model dmr.record_filter dmr.limit = Except.ok stmts) :
    (translate_write_query (WriteQuery.DeleteManyRecords dmr) b).1
      = TranslateOutcome.ok (Expression.Sum (stmts.map Expression.Execute)) := by
  simp [translate_write_query, h]

/-- C9 witness: the theorem instantiated on a concrete delete-many payload
and a builder returning two statements. -/
theorem delete_many_sum_over_execute_witness :
    (translate_write_query (WriteQuery.DeleteManyRecords dmr0) b0).1
      = TranslateOutcome.ok (Expression.Sum ([stmt0, stmt1].map Expression.Execute)) :=
  delete_many_sum_over_execute b0 dmr0 [stmt0, stmt1] rfl

/-- C10: two update-with-selection operations that agree on model, record
filter, arguments and selected fields — differing only in `name` and
`selection_order` — make the same builder calls and produce identical
results: those fields have no influence on the output. -/
theorem update_selection_order_noninterference (b : QueryBuilder)
    (u1 u2 : UpdateRecordWithSelection)
    (hm : u1.model = u2.model) (hf : u1.record_filter = u2.record_filter)
    (ha : u1.args = u2.args) (hs : u1.selected_fields = u2.selected_fields) :
    translate_write_query (WriteQuery.UpdateRecord (UpdateRecord.WithSelection u1)) b
      = translate_write_query (WriteQuery.UpdateRecord (UpdateRecord.WithSelection u2)) b := by
  cases u1 with
  | mk n1 m1 rf1 a1 sf1 so1 =>
    cases u2 with
    | mk n2 m2 rf2 a2 sf2 so2 =>
      simp only at hm hf ha hs
      subst hm; subst hf; subst ha; subst hs
      rfl

/-- C10 witness: the theorem instantiated on two concrete payloads differing
only in `name` and `selection_order`. -/
theorem update_selection_order_noninterference_witness :
    translate_write_query
        (WriteQuery.UpdateRecord (UpdateRecord.WithSelection
          ⟨"first", model0, rf0, argsOne, fs0, ["id"]⟩)) b0
      = translate_write_query
        (WriteQuery.UpdateRecord (UpdateRecord.WithSelection
          ⟨"second", model0, rf0, argsOne, fs0, []⟩)) b0 :=
  update_selection_order_noninterference b0
    ⟨"first", model0, rf0, argsOne, fs0, ["id"]⟩
    ⟨"second", model0, rf0, argsOne, fs0, []⟩ rfl rfl rfl rfl

end QC
